import Mathlib

/- Shallow embedding of the EduQuest AI gamification backend:
   `backend/app/services/gamification.py`, `backend/app/services/achievements.py`
   and the SM-2 review route in `backend/app/routes/flashcards.py`.

   Modelling conventions:
   * Timestamps are natural numbers counting seconds since the epoch; Python's
     `datetime.date()` truncation corresponds to integer division by
     `secondsPerDay`, which preserves ordering and day arithmetic.
   * Python floats (SM-2 ease factors, XP multipliers) are modelled as
     rationals.  Every float constant in the source (0.1, 0.08, 0.02, 1.3,
     1.5, 2.0, 2.5, 3.0) is exactly representable in binary floating point and
     the values reached in the verified scenarios stay well inside the exact
     range, so the rational model agrees with the float execution there.
   * Python `int(x)` for the nonnegative values arising here is `⌊x⌋`
     (truncation towards zero and floor coincide on nonnegative input).
   * MongoDB documents become a `UserDoc` record; each service function is a
     pure state transformer `UserDoc → UserDoc × Result` threading the reads
     and writes in the order the source performs them. -/

/-- Rank thresholds, from `RANK_THRESHOLDS` in gamification.py. -/
def RANK_THRESHOLDS : List (String × Nat) :=
  [("Bronze", 0), ("Silver", 501), ("Gold", 1501), ("Platinum", 3001), ("Diamond", 7501)]

/-- Rank names in ascending order, from `RANK_ORDER` in gamification.py. -/
def RANK_ORDER : List String := ["Bronze", "Silver", "Gold", "Platinum", "Diamond"]

/-- Threshold lookup `RANK_THRESHOLDS[rank]` (every rank in `RANK_ORDER` is a key). -/
def rankThreshold (r : String) : Nat := (RANK_THRESHOLDS.lookup r).getD 0

/-- `get_rank_from_xp`: scan `reversed(RANK_ORDER)` and return the first rank whose
    threshold is ≤ xp, defaulting to "Bronze". -/
def get_rank_from_xp (xp : Nat) : String :=
  match RANK_ORDER.reverse.find? (fun rank => decide (rankThreshold rank ≤ xp)) with
  | some rank => rank
  | none => "Bronze"

/-- `check_rank_up`: compare the ranks derived from the old and new XP. -/
def check_rank_up (old_xp new_xp : Nat) : Bool × String × String :=
  let old_rank := get_rank_from_xp old_xp
  let new_rank := get_rank_from_xp new_xp
  (old_rank != new_rank, old_rank, new_rank)

/-- `STREAK_MULTIPLIERS` dict from gamification.py, as a key-ascending assoc list. -/
def STREAK_MULTIPLIERS : List (Nat × ℚ) := [(7, 3/2), (30, 2), (100, 3)]

/-- `get_streak_multiplier`: the source iterates `sorted(STREAK_MULTIPLIERS.items(),
    reverse=True)` — the key-descending list, i.e. `STREAK_MULTIPLIERS.reverse` —
    and returns the first multiplier whose milestone is ≤ streak, else 1.0. -/
def get_streak_multiplier (streak : Nat) : ℚ :=
  match STREAK_MULTIPLIERS.reverse.find? (fun p => decide (p.1 ≤ streak)) with
  | some p => p.2
  | none => 1

/-- Breakdown dict returned by `calculate_xp`. -/
structure XpBreakdown where
  base : Nat
  streak_bonus : Nat
  perfect_bonus : Nat
  time_bonus : Nat
  subtotal : Nat
  streak_multiplier : ℚ
  total : Nat
deriving Repr, DecidableEq

/-- `calculate_xp` from gamification.py.  `int(subtotal * multiplier)` is modelled
    as `Int.toNat ⌊subtotal * multiplier⌋`: all inputs are nonnegative, where
    Python's truncation towards zero coincides with the floor. -/
def calculate_xp (correct_answers streak : Nat) (perfect_score : Bool) (time_bonus : Nat) :
    Nat × XpBreakdown :=
  let base_xp := correct_answers * 10
  let streak_bonus := if streak > 0 then streak * 5 else 0
  let perfect_bonus := if perfect_score then 50 else 0
  let subtotal := base_xp + streak_bonus + perfect_bonus + time_bonus
  let multiplier := get_streak_multiplier streak
  let total := (⌊(subtotal : ℚ) * multiplier⌋).toNat
  (total,
    { base := base_xp
      streak_bonus := streak_bonus
      perfect_bonus := perfect_bonus
      time_bonus := time_bonus
      subtotal := subtotal
      streak_multiplier := multiplier
      total := total })

/-- Multiplier as the spec words it: 1.0 below a 7-day streak, 1.5 at ≥7, 2.0 at
    ≥30, 3.0 at ≥100, the highest matching tier winning. -/
def specMultiplierFor (streak : Nat) : ℚ :=
  if 100 ≤ streak then 3 else if 30 ≤ streak then 2 else if 7 ≤ streak then 3 / 2 else 1

/-- Quiz XP total as the spec words it: `floor(subtotal * multiplier)` over
    `subtotal = base + streakBonus + perfectBonus + timeBonus`. -/
def specQuizXpTotal (correctAnswers streak : Nat) (perfectScore : Bool) (timeBonus : Nat) : Nat :=
  let base := correctAnswers * 10
  let streakBonus := if 0 < streak then streak * 5 else 0
  let perfectBonus := if perfectScore then 50 else 0
  let subtotal := base + streakBonus + perfectBonus + timeBonus
  (⌊(subtotal : ℚ) * specMultiplierFor streak⌋).toNat

/-- Seconds in a calendar day; `datetime.date()` truncation becomes division by this. -/
def secondsPerDay : Nat := 86400

/-- Calendar date (day index since the epoch) of a timestamp. -/
def dateOf (t : Nat) : Nat := t / secondsPerDay

/-- Reward tiers of `STREAK_MILESTONES` in gamification.py. -/
structure MilestoneTier where
  freeze_tokens : Nat
  bonus_xp : Nat
  title : String
deriving Repr, DecidableEq

/-- `STREAK_MILESTONES` dict from gamification.py. -/
def STREAK_MILESTONES : List (Nat × MilestoneTier) :=
  [(7, ⟨1, 100, "Week Warrior"⟩),
   (30, ⟨2, 500, "Monthly Master"⟩),
   (100, ⟨5, 2000, "Century Champion"⟩),
   (365, ⟨10, 10000, "Year Legend"⟩)]

/-- The persistent per-user MongoDB document, restricted to the fields the
    gamification and login-bonus services read or write.  UI-only strings
    (reward messages) are omitted. -/
structure UserDoc where
  totalXP : Nat
  rank : String
  currentStreak : Nat
  longestStreak : Nat
  lastActiveDate : Option Nat
  streakFreezes : Nat
  streakFreezeActive : Bool
  streakFreezeExpiry : Option Nat
  streakMilestonesReached : List Nat
  loginStreak : Nat
  lastLoginDate : Option Nat
  lastBonusClaimDate : Option Nat
  loginBadges : List String
deriving Repr, DecidableEq

/-- Result dict of `check_streak_milestone` when a milestone fires. -/
structure MilestoneResult where
  milestone : Nat
  title : String
  freeze_tokens : Nat
  bonus_xp : Nat
  total_freezes : Nat
deriving Repr, DecidableEq

/-- `check_streak_milestone` from gamification.py: if the new streak is a milestone
    not yet in `streakMilestonesReached`, add the tier's freeze tokens and bonus XP
    and push the value; the stored `rank` field is not touched. -/
def check_streak_milestone (u : UserDoc) (new_streak : Nat) : UserDoc × Option MilestoneResult :=
  match STREAK_MILESTONES.lookup new_streak with
  | none => (u, none)
  | some tier =>
    if new_streak ∈ u.streakMilestonesReached then
      (u, none)
    else
      ({ u with
          streakFreezes := u.streakFreezes + tier.freeze_tokens
          totalXP := u.totalXP + tier.bonus_xp
          streakMilestonesReached := u.streakMilestonesReached ++ [new_streak] },
       some ⟨new_streak, tier.title, tier.freeze_tokens, tier.bonus_xp,
             u.streakFreezes + tier.freeze_tokens⟩)

/-- `check_and_apply_freeze` from gamification.py: a freeze protects only when it is
    flagged active, has an expiry, and `now` is not past the expiry; an expired
    active freeze is deactivated and does not protect. -/
def check_and_apply_freeze (now : Nat) (u : UserDoc) : UserDoc × Bool :=
  if !u.streakFreezeActive then (u, false)
  else
    match u.streakFreezeExpiry with
    | none => (u, false)
    | some expiry =>
      if now > expiry then ({ u with streakFreezeActive := false }, false)
      else (u, true)

/-- Result dict of `update_streak`. -/
structure StreakResult where
  currentStreak : Nat
  updated : Bool
  milestone : Option MilestoneResult
deriving Repr, DecidableEq

/-- Common tail of `update_streak`: store the new streak and the activity
    timestamp, then raise `longestStreak` to the new streak if it grew. -/
def streakWriteBack (now : Nat) (u : UserDoc) (new_streak : Nat)
    (milestone : Option MilestoneResult) : UserDoc × StreakResult :=
  let u2 := { u with currentStreak := new_streak, lastActiveDate := some now }
  let u3 := if new_streak > u2.longestStreak then { u2 with longestStreak := new_streak } else u2
  (u3, ⟨new_streak, true, milestone⟩)

/-- The `last_active_date is None or gap > 1` branch of `update_streak`: consult the
    freeze; a protecting freeze continues the streak and is then deactivated,
    otherwise the streak restarts at 1.  No milestone check happens here. -/
def streakFreezeBranch (now : Nat) (u : UserDoc) : UserDoc × StreakResult :=
  let p := check_and_apply_freeze now u
  if p.2 then
    streakWriteBack now { p.1 with streakFreezeActive := false } (p.1.currentStreak + 1) none
  else
    streakWriteBack now p.1 1 none

/-- `update_streak` from gamification.py.  Date comparisons are on day indices:
    `last == yesterday` is `d + 1 = today` and `(today - last).days > 1` is
    `d + 1 < today`.  The final `else` branch of the source (a last-active date in
    the future) resets the streak to 1 without consulting the freeze. -/
def update_streak (now : Nat) (u : UserDoc) : UserDoc × StreakResult :=
  let today := dateOf now
  match u.lastActiveDate with
  | some la =>
    if dateOf la = today then
      (u, ⟨u.currentStreak, false, none⟩)
    else if dateOf la + 1 = today then
      let new_streak := u.currentStreak + 1
      let m := check_streak_milestone u new_streak
      streakWriteBack now m.1 new_streak m.2
    else if dateOf la + 1 < today then
      streakFreezeBranch now u
    else
      streakWriteBack now u 1 none
  | none => streakFreezeBranch now u

/-- Result dict of `update_user_xp`. -/
structure XpUpdateResult where
  oldXP : Nat
  newXP : Nat
  xpGained : Nat
  oldRank : String
  newRank : String
  rankedUp : Bool
deriving Repr, DecidableEq

/-- `update_user_xp` from gamification.py: add the XP and store the rank derived
    from the new total (this is the only service function that writes `rank`). -/
def update_user_xp (u : UserDoc) (xp_to_add : Nat) : UserDoc × XpUpdateResult :=
  let old_xp := u.totalXP
  let new_xp := old_xp + xp_to_add
  let r := check_rank_up old_xp new_xp
  ({ u with totalXP := new_xp, rank := r.2.2 },
   ⟨old_xp, new_xp, xp_to_add, r.2.1, r.2.2, r.1⟩)

/-- Review ratings accepted by the flashcard review route. -/
inductive Rating
  | again
  | hard
  | good
  | easy
deriving Repr, DecidableEq

/-- The `quality_map` dict in `review_flashcard`. -/
def quality_map : Rating → Nat
  | .again => 0
  | .hard => 3
  | .good => 4
  | .easy => 5

/-- Flashcard document, restricted to the SM-2 fields `review_flashcard` reads and
    writes (`nextReview`, `lastReviewed` and the appended history entry are pure
    timestamp bookkeeping and carry no algorithmic state). -/
structure Flashcard where
  easeFactor : ℚ
  interval : ℤ
  repetitions : Nat
  status : String
deriving Repr, DecidableEq

/-- Python's `round`: round half to even (banker's rounding), which is what
    `round(interval * ease_factor)` performs on a float. -/
def pyRound (q : ℚ) : ℤ :=
  let f := ⌊q⌋
  let r := q - f
  if r < 1 / 2 then f
  else if 1 / 2 < r then f + 1
  else if f % 2 = 0 then f else f + 1

/-- The SM-2 update of `review_flashcard` in flashcards.py.  A failed review
    (quality < 3, i.e. "again") resets repetitions and interval and leaves the
    ease factor untouched; a passed review grows the interval, bumps repetitions,
    and updates the ease factor with a hard clamp at 1.3. -/
def review_flashcard (card : Flashcard) (rating : Rating) : Flashcard :=
  let quality := quality_map rating
  if quality < 3 then
    { card with repetitions := 0, interval := 0, status := "learning" }
  else
    let interval :=
      if card.repetitions = 0 then 1
      else if card.repetitions = 1 then 6
      else pyRound ((card.interval : ℚ) * card.easeFactor)
    let repetitions := card.repetitions + 1
    let ef := card.easeFactor +
      (1 / 10 - (5 - (quality : ℚ)) * (2 / 25 + (5 - (quality : ℚ)) * (1 / 50)))
    let ease_factor := if ef < 13 / 10 then 13 / 10 else ef
    let status :=
      if interval ≥ 21 then "mastered"
      else if interval ≥ 1 then "reviewing"
      else "learning"
    { card with
        easeFactor := ease_factor
        interval := interval
        repetitions := repetitions
        status := status }

/-- Reward payload of a daily login bonus (UI message omitted). -/
structure LoginBonus where
  xp : Nat
  freeze_tokens : Nat
  badge : Option String
deriving Repr, DecidableEq

/-- `DAILY_LOGIN_BONUSES` dict from gamification.py. -/
def DAILY_LOGIN_BONUSES : List (Nat × LoginBonus) :=
  [(1, ⟨10, 0, none⟩), (3, ⟨25, 0, none⟩), (7, ⟨50, 1, none⟩), (14, ⟨100, 1, none⟩),
   (30, ⟨200, 2, some "Monthly Login Master"⟩), (50, ⟨300, 2, none⟩),
   (100, ⟨500, 5, some "Century Learner"⟩)]

/-- `_get_login_bonus`: the streak-day payload, or the flat 5-XP trickle. -/
def get_login_bonus (streak : Nat) : LoginBonus :=
  match DAILY_LOGIN_BONUSES.lookup streak with
  | some b => b
  | none => ⟨5, 0, none⟩

/-- Result of `check_daily_login_bonus` (the `nextBonus` preview is pure UI data
    and is omitted). -/
structure LoginCheck where
  claimable : Bool
  reason : Option String
  loginStreak : Nat
  bonus : Option LoginBonus
deriving Repr, DecidableEq

/-- `check_daily_login_bonus` from gamification.py: a pure read.  If the bonus was
    already claimed today it is not claimable; otherwise the new login streak is
    kept on a same-day login, incremented on a consecutive-day login, and reset
    to 1 on a gap or first login. -/
def check_daily_login_bonus (now : Nat) (u : UserDoc) : LoginCheck :=
  let claimedToday :=
    match u.lastBonusClaimDate with
    | some c => decide (dateOf c = dateOf now)
    | none => false
  if claimedToday then
    ⟨false, some "Already claimed today", u.loginStreak, none⟩
  else
    let new_streak :=
      match u.lastLoginDate with
      | some l =>
        if dateOf l = dateOf now then u.loginStreak
        else if dateOf l + 1 = dateOf now then u.loginStreak + 1
        else 1
      | none => 1
    ⟨true, none, new_streak, some (get_login_bonus new_streak)⟩

/-- Result dict of `claim_daily_login_bonus`; fields that are absent from the
    source's failure dict are `none`. -/
structure ClaimResult where
  success : Bool
  error : Option String
  loginStreak : Option Nat
  bonus : Option LoginBonus
  newTotalXP : Option Nat
  newFreezeTokens : Option Nat
deriving Repr, DecidableEq

/-- MongoDB `$addToSet`: append only when absent. -/
def addToSet (l : List String) (x : String) : List String :=
  if x ∈ l then l else l ++ [x]

/-- `claim_daily_login_bonus` from gamification.py: re-runs the claimable check and
    fails with its reason without touching the document; otherwise stamps
    `lastLoginDate`/`lastBonusClaimDate`, stores the new login streak and adds the
    bonus XP, freeze tokens and badge.  The stored `rank` field is not touched. -/
def claim_daily_login_bonus (now : Nat) (u : UserDoc) : UserDoc × ClaimResult :=
  let check := check_daily_login_bonus now u
  if !check.claimable then
    (u, ⟨false, some (check.reason.getD "Cannot claim bonus"), none, none, none, none⟩)
  else
    let new_streak := check.loginStreak
    let bonus := check.bonus.getD ⟨5, 0, none⟩
    let u1 := { u with
      lastLoginDate := some now
      lastBonusClaimDate := some now
      loginStreak := new_streak
      totalXP := u.totalXP + bonus.xp
      streakFreezes := u.streakFreezes + bonus.freeze_tokens
      loginBadges :=
        match bonus.badge with
        | some b => addToSet u.loginBadges b
        | none => u.loginBadges }
    (u1, ⟨true, none, some new_streak, some bonus, some u1.totalXP, some u1.streakFreezes⟩)

/-- Stats snapshot handed to `check_achievements` by the quiz route.  `isPerfect`
    marks a 100% quiz in the snapshot the route builds; `check_achievements`
    never reads it. -/
structure StatsSnapshot where
  totalXP : Nat
  questsCompleted : Nat
  currentStreak : Nat
  correctAnswers : Nat
  isPerfect : Bool
deriving Repr, DecidableEq

/-- The 18-entry `ACHIEVEMENTS` catalog of achievements.py as `(id, xp_reward)`
    pairs (names, descriptions and icons are UI data). -/
def ACHIEVEMENTS : List (String × Nat) :=
  [("first_quest", 10), ("perfectionist", 50), ("bronze_rank", 25), ("silver_rank", 50),
   ("gold_rank", 100), ("platinum_rank", 200), ("diamond_rank", 500), ("streak_3", 30),
   ("streak_7", 75), ("streak_30", 300), ("quest_10", 50), ("quest_50", 150),
   ("quest_100", 500), ("correct_100", 100), ("correct_500", 300), ("xp_1000", 100),
   ("xp_5000", 250), ("xp_10000", 1000)]

/-- The `rank_achievements` dict inside `check_achievements`. -/
def rank_achievements : List (String × String) :=
  [("Bronze", "bronze_rank"), ("Silver", "silver_rank"), ("Gold", "gold_rank"),
   ("Platinum", "platinum_rank"), ("Diamond", "diamond_rank")]

/-- `check_achievements` from achievements.py, as the list of newly unlocked
    achievement ids.  The source appends the catalog records to `newly_unlocked`
    in exactly this order: first-quest, rank, streak chain, quest-count chain,
    correct-count chain, XP chain; each chain is an if/elif cascade from the
    highest threshold down, guarded by "not already earned". -/
def check_achievements (earned : List String) (rank : String) (stats : StatsSnapshot) :
    List String :=
  (if "first_quest" ∉ earned ∧ 1 ≤ stats.questsCompleted then ["first_quest"] else []) ++
  (match rank_achievements.lookup rank with
   | some a => if a ∉ earned then [a] else []
   | none => []) ++
  (if "streak_30" ∉ earned ∧ 30 ≤ stats.currentStreak then ["streak_30"]
   else if "streak_7" ∉ earned ∧ 7 ≤ stats.currentStreak then ["streak_7"]
   else if "streak_3" ∉ earned ∧ 3 ≤ stats.currentStreak then ["streak_3"] else []) ++
  (if "quest_100" ∉ earned ∧ 100 ≤ stats.questsCompleted then ["quest_100"]
   else if "quest_50" ∉ earned ∧ 50 ≤ stats.questsCompleted then ["quest_50"]
   else if "quest_10" ∉ earned ∧ 10 ≤ stats.questsCompleted then ["quest_10"] else []) ++
  (if "correct_500" ∉ earned ∧ 500 ≤ stats.correctAnswers then ["correct_500"]
   else if "correct_100" ∉ earned ∧ 100 ≤ stats.correctAnswers then ["correct_100"] else []) ++
  (if "xp_10000" ∉ earned ∧ 10000 ≤ stats.totalXP then ["xp_10000"]
   else if "xp_5000" ∉ earned ∧ 5000 ≤ stats.totalXP then ["xp_5000"]
   else if "xp_1000" ∉ earned ∧ 1000 ≤ stats.totalXP then ["xp_1000"] else [])

/-- The source's post-check write: `$addToSet` each newly unlocked id into the
    user's earned-achievement list. -/
def record_achievements (earned : List String) (ids : List String) : List String :=
  ids.foldl addToSet earned

/-- Iterated daily streak-advance: apply `update_streak` at each timestamp in turn. -/
def run_update_streak : List Nat → UserDoc → UserDoc
  | [], u => u
  | t :: ts, u => run_update_streak ts (update_streak t u).1

/-- The milestone values awarded along a sequence of daily streak-advance events. -/
def run_streak_awards : List Nat → UserDoc → List Nat
  | [], _ => []
  | t :: ts, u =>
    (match (update_streak t u).2.milestone with
     | some m => [m.milestone]
     | none => []) ++ run_streak_awards ts (update_streak t u).1

/-- Modelled from the spec wording for the achievement policy: scan one stat axis
    from the highest threshold down and report only the highest threshold that is
    crossed and not already earned. -/
def highestNewlyCrossed : List (Nat × String) → Nat → List String → List String
  | [], _, _ => []
  | t :: rest, stat, earned =>
    if t.2 ∉ earned ∧ t.1 ≤ stat then [t.2] else highestNewlyCrossed rest stat earned

/-- Streak-axis thresholds, highest first. -/
def streakAxis : List (Nat × String) := [(30, "streak_30"), (7, "streak_7"), (3, "streak_3")]

/-- Quest-count-axis thresholds, highest first. -/
def questAxis : List (Nat × String) := [(100, "quest_100"), (50, "quest_50"), (10, "quest_10")]

/-- Correct-count-axis thresholds, highest first. -/
def correctAxis : List (Nat × String) := [(500, "correct_500"), (100, "correct_100")]

/-- XP-axis thresholds, highest first. -/
def xpAxis : List (Nat × String) := [(10000, "xp_10000"), (5000, "xp_5000"), (1000, "xp_1000")]

/-- Modelled from the spec wording: the evaluator reports, in the fixed order
    first-quest, rank, streak, quest-count, correct-count, xp, the highest newly
    crossed threshold of each axis, skipping everything already earned. -/
def evaluate_spec (earned : List String) (rank : String) (stats : StatsSnapshot) :
    List String :=
  (if "first_quest" ∉ earned ∧ 1 ≤ stats.questsCompleted then ["first_quest"] else []) ++
  (match rank_achievements.lookup rank with
   | some a => if a ∉ earned then [a] else []
   | none => []) ++
  highestNewlyCrossed streakAxis stats.currentStreak earned ++
  highestNewlyCrossed questAxis stats.questsCompleted earned ++
  highestNewlyCrossed correctAxis stats.correctAnswers earned ++
  highestNewlyCrossed xpAxis stats.totalXP earned

theorem get_streak_multiplier_eq (s : Nat) : get_streak_multiplier s = specMultiplierFor s := by
  have h : STREAK_MULTIPLIERS.reverse = [(100, (3 : ℚ)), (30, 2), (7, 3 / 2)] := rfl
  unfold get_streak_multiplier specMultiplierFor
  rw [h]
  by_cases h100 : 100 ≤ s
  · simp [List.find?, h100]
  · by_cases h30 : 30 ≤ s
    · simp [List.find?, h100, h30]
    · by_cases h7 : 7 ≤ s
      · simp [List.find?, h100, h30, h7]
      · simp [List.find?, h100, h30, h7]

/-- C5: quiz XP follows the spec formula — base `correctAnswers*10`, streak bonus
    `streak*5` when positive, perfect bonus 50, `total = floor(subtotal *
    multiplier)` with multiplier 1.0 / 1.5 / 2.0 / 3.0 at streak tiers 0 / 7 / 30 /
    100 (highest tier winning); in particular 5 correct answers at streak 0 with no
    perfect score yield 50 XP. -/
theorem calculate_xp_follows_spec_formula :
    (∀ ca s ps tb, (calculate_xp ca s ps tb).1 = specQuizXpTotal ca s ps tb) ∧
    (calculate_xp 5 0 false 0).1 = 50 := by
  constructor
  · intro ca s ps tb
    simp only [calculate_xp, specQuizXpTotal, get_streak_multiplier_eq]
  · have h := get_streak_multiplier_eq 0
    simp only [calculate_xp, h, specMultiplierFor]
    norm_num
    rfl


/-- C1 counterexample: a user at 450 XP with rank "Bronze" continues a 6-day streak
    and hits the 7-day milestone; its 100 bonus XP raise `totalXP` to 550 but the
    stored rank stays "Bronze" while the rank derived from 550 XP is "Silver", so
    the streak-milestone operation breaks `rank = rankFor(totalXP)`. -/
theorem rank_stale_after_milestone_bonus :
    let u : UserDoc := ⟨450, "Bronze", 6, 6, some 86400, 0, false, none, [], 0, none, none, []⟩
    let v := (update_streak 172800 u).1
    v.totalXP = 550 ∧ v.rank = "Bronze" ∧ get_rank_from_xp v.totalXP = "Silver" ∧
      v.rank ≠ get_rank_from_xp v.totalXP := by decide

/-- C1 amended: only quiz XP application keeps the stored rank equal to the rank
    derived from the new total; the streak-milestone bonus and the daily
    login-bonus claim change `totalXP` while leaving the stored rank untouched. -/
theorem rank_written_only_by_update_user_xp :
    (∀ u xp, (update_user_xp u xp).1.rank = get_rank_from_xp (update_user_xp u xp).1.totalXP) ∧
    (∀ u s, (check_streak_milestone u s).1.rank = u.rank) ∧
    (∀ t u, (claim_daily_login_bonus t u).1.rank = u.rank) := by
  refine ⟨fun u xp => rfl, fun u s => ?_, fun t u => ?_⟩
  · unfold check_streak_milestone
    cases STREAK_MILESTONES.lookup s with
    | none => rfl
    | some tier => by_cases h : s ∈ u.streakMilestonesReached <;> simp [h]
  · unfold claim_daily_login_bonus
    by_cases h : (check_daily_login_bonus t u).claimable <;> simp [h]

/-- C2 counterexample: reviewing a flashcard with interval 6, repetitions 1 and
    ease factor 2.5 with rating "good" lands in the `repetitions == 1` branch and
    yields interval 6, not round(6 * 2.5) = 15. -/
theorem scenario_d_interval_is_6_not_15 :
    (review_flashcard ⟨5/2, 6, 1, "reviewing"⟩ Rating.good).interval = 6 ∧
    (review_flashcard ⟨5/2, 6, 1, "reviewing"⟩ Rating.good).interval ≠ 15 := by
  simp only [review_flashcard, quality_map]
  norm_num

/-- C2 amended: that review yields interval 6, repetitions 2, an unchanged ease
    factor of 2.5 and status "reviewing". -/
theorem scenario_d_review_result :
    review_flashcard ⟨5/2, 6, 1, "reviewing"⟩ Rating.good = ⟨5/2, 6, 2, "reviewing"⟩ := by
  simp only [review_flashcard, quality_map]
  norm_num

/-- C9: a user with 6 consecutive prior login days (last login and last bonus claim
    yesterday) claims the login bonus on day 7: the login streak becomes 7 and the
    day-7 payload of 50 XP and one freeze token is applied; a second claim later
    the same day fails with the "Already claimed today" reason and leaves the
    document unchanged. -/
theorem login_bonus_day7_then_already_claimed :
    let u : UserDoc := ⟨0, "Bronze", 0, 0, none, 0, false, none, [], 6, some 86400, some 86400, []⟩
    let r1 := claim_daily_login_bonus 172800 u
    let r2 := claim_daily_login_bonus 180000 r1.1
    r1.2.success = true ∧ r1.2.loginStreak = some 7 ∧ r1.2.bonus = some ⟨50, 1, none⟩ ∧
    r1.1.loginStreak = 7 ∧ r1.1.totalXP = 50 ∧ r1.1.streakFreezes = 1 ∧
    r2.2.success = false ∧ r2.2.error = some "Already claimed today" ∧ r2.1 = r1.1 := by decide

theorem lookup_rank_achievements_mem {rank a : String}
    (h : rank_achievements.lookup rank = some a) :
    a ∈ ["bronze_rank", "silver_rank", "gold_rank", "platinum_rank", "diamond_rank"] := by
  simp only [rank_achievements, List.lookup] at h
  repeat' split at h
  all_goals first
    | (simp only [Option.some.injEq] at h; subst h; decide)
    | exact absurd h (by simp)

theorem check_achievements_eq_spec (earned : List String) (rank : String)
    (stats : StatsSnapshot) :
    check_achievements earned rank stats = evaluate_spec earned rank stats := rfl

theorem mem_highestNewlyCrossed {a : String} {axis : List (Nat × String)} {stat : Nat}
    {earned : List String} (h : a ∈ highestNewlyCrossed axis stat earned) :
    a ∉ earned ∧ a ∈ axis.map Prod.snd := by
  induction axis with
  | nil => simp [highestNewlyCrossed] at h
  | cons t rest ih =>
    simp only [highestNewlyCrossed] at h
    split at h
    · rename_i hc
      simp at h
      subst h
      exact ⟨hc.1, by simp⟩
    · have := ih h
      refine ⟨this.1, ?_⟩
      simp only [List.map_cons, List.mem_cons]
      exact Or.inr this.2

theorem mem_check_achievements {a : String} {e : List String} {r : String}
    {s : StatsSnapshot} (h : a ∈ check_achievements e r s) :
    a ∉ e ∧ a ∈ ["first_quest", "bronze_rank", "silver_rank", "gold_rank", "platinum_rank",
      "diamond_rank", "streak_30", "streak_7", "streak_3", "quest_100", "quest_50",
      "quest_10", "correct_500", "correct_100", "xp_10000", "xp_5000", "xp_1000"] := by
  rw [check_achievements_eq_spec] at h
  unfold evaluate_spec at h
  simp only [List.mem_append, or_assoc] at h
  rcases h with h | h | h | h | h | h
  · split at h
    · rename_i hc
      simp at h
      subst h
      exact ⟨hc.1, by decide⟩
    · simp at h
  · revert h
    cases hl : rank_achievements.lookup r with
    | none => simp
    | some v =>
      intro h
      split at h
      · rename_i w hv
        simp at h
        obtain ⟨hw, rfl⟩ := h
        injection hv with hv
        subst hv
        refine ⟨hw, ?_⟩
        have := lookup_rank_achievements_mem hl
        simp only [List.mem_cons] at this ⊢
        tauto
      · simp at h
  · have := mem_highestNewlyCrossed h
    refine ⟨this.1, ?_⟩
    have h2 := this.2
    simp [streakAxis] at h2
    simp only [List.mem_cons]
    tauto
  · have := mem_highestNewlyCrossed h
    refine ⟨this.1, ?_⟩
    have h2 := this.2
    simp [questAxis] at h2
    simp only [List.mem_cons]
    tauto
  · have := mem_highestNewlyCrossed h
    refine ⟨this.1, ?_⟩
    have h2 := this.2
    simp [correctAxis] at h2
    simp only [List.mem_cons]
    tauto
  · have := mem_highestNewlyCrossed h
    refine ⟨this.1, ?_⟩
    have h2 := this.2
    simp [xpAxis] at h2
    simp only [List.mem_cons]
    tauto

theorem mem_record_achievements {x : String} : ∀ {ids e : List String}, x ∉ ids →
    (x ∈ record_achievements e ids ↔ x ∈ e) := by
  intro ids
  induction ids with
  | nil =>
    intro e h
    simp [record_achievements]
  | cons i ids ih =>
    intro e h
    simp only [List.mem_cons, not_or] at h
    have hr : record_achievements e (i :: ids) = record_achievements (addToSet e i) ids := rfl
    rw [hr, ih h.2]
    unfold addToSet
    split
    · exact Iff.rfl
    · simp [List.mem_append, h.1]

/-- C8: for every earned set, rank and stats snapshot the evaluator output equals
    the spec-side evaluator — highest newly crossed threshold per axis, in the
    fixed order first-quest, rank, streak, quest-count, correct-count, xp — and
    every reported achievement was not already earned. -/
theorem check_achievements_axis_policy :
    ∀ earned rank stats,
      check_achievements earned rank stats = evaluate_spec earned rank stats ∧
      ∀ a ∈ check_achievements earned rank stats, a ∉ earned :=
  fun earned rank stats =>
    ⟨check_achievements_eq_spec earned rank stats,
     fun _ ha => (mem_check_achievements ha).1⟩

/-- C10: the "perfectionist" entry sits in the 18-entry catalog, yet for every
    earned set, rank and stats snapshot (including snapshots whose `isPerfect`
    flag is set) the evaluator never returns it, and recording the evaluator
    output adds it to the earned set only if it was already there. -/
theorem perfectionist_unreachable :
    ("perfectionist", 50) ∈ ACHIEVEMENTS ∧
    ∀ earned rank stats,
      "perfectionist" ∉ check_achievements earned rank stats ∧
      ("perfectionist" ∈ record_achievements earned (check_achievements earned rank stats) ↔
        "perfectionist" ∈ earned) := by
  refine ⟨by decide, fun e r s => ?_⟩
  have hn : "perfectionist" ∉ check_achievements e r s := by
    intro h
    exact absurd (mem_check_achievements h).2 (by decide)
  exact ⟨hn, mem_record_achievements hn⟩

theorem streakWriteBack_eq (now : Nat) (u : UserDoc) (ns : Nat) (m : Option MilestoneResult) :
    streakWriteBack now u ns m =
      ({ u with currentStreak := ns, lastActiveDate := some now,
                longestStreak := max u.longestStreak ns }, ⟨ns, true, m⟩) := by
  unfold streakWriteBack
  by_cases h : ns > u.longestStreak
  · have hm : max u.longestStreak ns = ns := by omega
    simp [h, hm]
  · have hm : max u.longestStreak ns = u.longestStreak := by omega
    simp [h, hm]

theorem update_streak_today (now : Nat) (u : UserDoc) (la : Nat)
    (hla : u.lastActiveDate = some la) (ht : dateOf la = dateOf now) :
    update_streak now u = (u, ⟨u.currentStreak, false, none⟩) := by
  unfold update_streak
  rw [hla]
  simp [ht]

theorem update_streak_yesterday (now : Nat) (u : UserDoc) (la : Nat)
    (hla : u.lastActiveDate = some la) (hy : dateOf la + 1 = dateOf now) :
    update_streak now u =
      streakWriteBack now (check_streak_milestone u (u.currentStreak + 1)).1
        (u.currentStreak + 1) (check_streak_milestone u (u.currentStreak + 1)).2 := by
  unfold update_streak
  rw [hla]
  have h1 : ¬ dateOf la = dateOf now := by omega
  simp [h1, hy]

theorem update_streak_gap (now : Nat) (u : UserDoc)
    (h : u.lastActiveDate = none ∨
      ∃ la, u.lastActiveDate = some la ∧ dateOf la + 1 < dateOf now) :
    update_streak now u = streakFreezeBranch now u := by
  rcases h with h | ⟨la, hla, hlt⟩
  · unfold update_streak
    rw [h]
  · unfold update_streak
    rw [hla]
    have h1 : ¬ dateOf la = dateOf now := by omega
    have h2 : ¬ dateOf la + 1 = dateOf now := by omega
    simp [h1, h2, hlt]

theorem update_streak_future (now : Nat) (u : UserDoc) (la : Nat)
    (hla : u.lastActiveDate = some la) (h1 : ¬ dateOf la = dateOf now)
    (h2 : ¬ dateOf la + 1 = dateOf now) (h3 : ¬ dateOf la + 1 < dateOf now) :
    update_streak now u = streakWriteBack now u 1 none := by
  unfold update_streak
  rw [hla]
  simp [h1, h2, h3]

theorem streakFreezeBranch_protected (now : Nat) (u : UserDoc) (e : Nat)
    (ha : u.streakFreezeActive = true) (he : u.streakFreezeExpiry = some e)
    (hne : now ≤ e) :
    streakFreezeBranch now u =
      streakWriteBack now { u with streakFreezeActive := false } (u.currentStreak + 1) none := by
  unfold streakFreezeBranch check_and_apply_freeze
  rw [ha, he]
  have h : ¬ now > e := by omega
  simp [h]
  rw [he]

theorem streakFreezeBranch_expired (now : Nat) (u : UserDoc) (e : Nat)
    (ha : u.streakFreezeActive = true) (he : u.streakFreezeExpiry = some e)
    (hlt : e < now) :
    streakFreezeBranch now u =
      streakWriteBack now { u with streakFreezeActive := false } 1 none := by
  unfold streakFreezeBranch check_and_apply_freeze
  rw [ha, he]
  have h : now > e := hlt
  simp [h]

theorem streakFreezeBranch_nofreeze (now : Nat) (u : UserDoc)
    (h : u.streakFreezeActive = false ∨ u.streakFreezeExpiry = none) :
    streakFreezeBranch now u = streakWriteBack now u 1 none := by
  unfold streakFreezeBranch check_and_apply_freeze
  rcases h with h | h
  · rw [h]
    simp
  · rw [h]
    by_cases ha : u.streakFreezeActive <;> simp [ha]

theorem check_streak_milestone_preserves (u : UserDoc) (s : Nat) :
    (check_streak_milestone u s).1.currentStreak = u.currentStreak ∧
    (check_streak_milestone u s).1.longestStreak = u.longestStreak ∧
    (check_streak_milestone u s).1.lastActiveDate = u.lastActiveDate ∧
    (check_streak_milestone u s).1.streakFreezeActive = u.streakFreezeActive ∧
    (check_streak_milestone u s).1.streakFreezeExpiry = u.streakFreezeExpiry := by
  unfold check_streak_milestone
  cases STREAK_MILESTONES.lookup s with
  | none => exact ⟨rfl, rfl, rfl, rfl, rfl⟩
  | some tier => by_cases h : s ∈ u.streakMilestonesReached <;> simp [h]

theorem check_streak_milestone_mono (u : UserDoc) (s x : Nat)
    (h : x ∈ u.streakMilestonesReached) :
    x ∈ (check_streak_milestone u s).1.streakMilestonesReached := by
  unfold check_streak_milestone
  cases STREAK_MILESTONES.lookup s with
  | none => exact h
  | some tier =>
    by_cases hm : s ∈ u.streakMilestonesReached <;> simp [hm, h]

theorem check_streak_milestone_of_lookup (u : UserDoc) (s : Nat) (tier : MilestoneTier)
    (hl : STREAK_MILESTONES.lookup s = some tier) (hn : s ∉ u.streakMilestonesReached) :
    check_streak_milestone u s =
      ({ u with streakFreezes := u.streakFreezes + tier.freeze_tokens,
                totalXP := u.totalXP + tier.bonus_xp,
                streakMilestonesReached := u.streakMilestonesReached ++ [s] },
       some ⟨s, tier.title, tier.freeze_tokens, tier.bonus_xp,
             u.streakFreezes + tier.freeze_tokens⟩) := by
  unfold check_streak_milestone
  rw [hl]
  simp [hn]

theorem check_streak_milestone_some (u : UserDoc) (s : Nat) (m : MilestoneResult)
    (h : (check_streak_milestone u s).2 = some m) :
    m.milestone = s ∧ s ∉ u.streakMilestonesReached ∧
    (check_streak_milestone u s).1.streakMilestonesReached =
      u.streakMilestonesReached ++ [s] := by
  revert h
  unfold check_streak_milestone
  cases STREAK_MILESTONES.lookup s with
  | none => simp
  | some tier =>
    by_cases hm : s ∈ u.streakMilestonesReached <;> simp [hm]
    intro hmm
    subst hmm
    simp

theorem streakWriteBack_fields (now : Nat) (u : UserDoc) (ns : Nat)
    (m : Option MilestoneResult) :
    (streakWriteBack now u ns m).1.currentStreak = ns ∧
    (streakWriteBack now u ns m).1.longestStreak = max u.longestStreak ns ∧
    (streakWriteBack now u ns m).1.streakMilestonesReached = u.streakMilestonesReached ∧
    (streakWriteBack now u ns m).1.streakFreezeActive = u.streakFreezeActive ∧
    (streakWriteBack now u ns m).1.totalXP = u.totalXP ∧
    (streakWriteBack now u ns m).1.streakFreezes = u.streakFreezes ∧
    (streakWriteBack now u ns m).2 = ⟨ns, true, m⟩ := by
  rw [streakWriteBack_eq]
  exact ⟨rfl, rfl, rfl, rfl, rfl, rfl, rfl⟩

theorem streakFreezeBranch_step (t : Nat) (u : UserDoc) :
    ((streakFreezeBranch t u).1.currentStreak = u.currentStreak + 1 ∨
      (streakFreezeBranch t u).1.currentStreak = 1) ∧
    (streakFreezeBranch t u).1.longestStreak =
      max u.longestStreak (streakFreezeBranch t u).1.currentStreak ∧
    (streakFreezeBranch t u).1.streakMilestonesReached = u.streakMilestonesReached ∧
    (streakFreezeBranch t u).2.milestone = none := by
  by_cases ha : u.streakFreezeActive
  · cases he : u.streakFreezeExpiry with
    | none =>
      rw [streakFreezeBranch_nofreeze t u (Or.inr he), streakWriteBack_eq]
      exact ⟨Or.inr rfl, rfl, rfl, rfl⟩
    | some e =>
      by_cases hne : t ≤ e
      · rw [streakFreezeBranch_protected t u e ha he hne, streakWriteBack_eq]
        exact ⟨Or.inl rfl, rfl, rfl, rfl⟩
      · rw [streakFreezeBranch_expired t u e ha he (by omega), streakWriteBack_eq]
        exact ⟨Or.inr rfl, rfl, rfl, rfl⟩
  · have ha' : u.streakFreezeActive = false := by
      simpa using ha
    rw [streakFreezeBranch_nofreeze t u (Or.inl ha'), streakWriteBack_eq]
    exact ⟨Or.inr rfl, rfl, rfl, rfl⟩

theorem update_streak_step (t : Nat) (u : UserDoc)
    (h : u.currentStreak ≤ u.longestStreak) :
    (update_streak t u).1.currentStreak ≤ (update_streak t u).1.longestStreak ∧
    u.longestStreak ≤ (update_streak t u).1.longestStreak := by
  cases hla : u.lastActiveDate with
  | none =>
    rw [update_streak_gap t u (Or.inl hla)]
    have hs := streakFreezeBranch_step t u
    rw [hs.2.1]
    exact ⟨le_max_right _ _, le_max_left _ _⟩
  | some la =>
    by_cases h1 : dateOf la = dateOf t
    · rw [update_streak_today t u la hla h1]
      exact ⟨h, le_refl _⟩
    · by_cases h2 : dateOf la + 1 = dateOf t
      · rw [update_streak_yesterday t u la hla h2]
        have hp := (check_streak_milestone_preserves u (u.currentStreak + 1)).2.1
        have hw := streakWriteBack_fields t (check_streak_milestone u (u.currentStreak + 1)).1
          (u.currentStreak + 1) (check_streak_milestone u (u.currentStreak + 1)).2
        rw [hw.1, hw.2.1, hp]
        exact ⟨le_max_right _ _, le_max_left _ _⟩
      · by_cases h3 : dateOf la + 1 < dateOf t
        · rw [update_streak_gap t u (Or.inr ⟨la, hla, h3⟩)]
          have hs := streakFreezeBranch_step t u
          rw [hs.2.1]
          exact ⟨le_max_right _ _, le_max_left _ _⟩
        · rw [update_streak_future t u la hla h1 h2 h3]
          have hw := streakWriteBack_fields t u 1 none
          rw [hw.1, hw.2.1]
          exact ⟨le_max_right _ _, le_max_left _ _⟩

/-- C7: over any sequence of daily streak-advance events, a user record that
    starts with `longestStreak ≥ currentStreak` keeps that invariant, and
    `longestStreak` never decreases. -/
theorem longest_streak_invariant (times : List Nat) :
    ∀ u : UserDoc, u.currentStreak ≤ u.longestStreak →
      (run_update_streak times u).currentStreak ≤ (run_update_streak times u).longestStreak ∧
      u.longestStreak ≤ (run_update_streak times u).longestStreak := by
  induction times with
  | nil =>
    intro u h
    exact ⟨h, le_refl _⟩
  | cons t ts ih =>
    intro u h
    have hs := update_streak_step t u h
    have ht := ih (update_streak t u).1 hs.1
    exact ⟨ht.1, le_trans hs.2 ht.2⟩

/-- C7 witness: the invariant theorem applied to a concrete record with
    currentStreak 3 and longestStreak 5 over one event. -/
theorem longest_streak_invariant_witness :
    (3 : Nat) ≤ 5 ∧
    ((run_update_streak [172800]
        ⟨0, "Bronze", 3, 5, some 86400, 0, false, none, [], 0, none, none, []⟩).currentStreak ≤
      (run_update_streak [172800]
        ⟨0, "Bronze", 3, 5, some 86400, 0, false, none, [], 0, none, none, []⟩).longestStreak ∧
     (5 : Nat) ≤ (run_update_streak [172800]
        ⟨0, "Bronze", 3, 5, some 86400, 0, false, none, [], 0, none, none, []⟩).longestStreak) :=
  ⟨by decide,
   longest_streak_invariant [172800]
     ⟨0, "Bronze", 3, 5, some 86400, 0, false, none, [], 0, none, none, []⟩ (by decide)⟩

/-- C3: the daily streak-advance transition.  Last active today: no-op returning
    updated=false with no state change.  Last active yesterday: the streak
    increments.  Gap of more than one day or never active: an active unexpired
    freeze lets the streak increment and is deactivated; an active expired freeze
    is cleared, does not protect, and the streak resets to 1, exactly as when no
    freeze exists. -/
theorem update_streak_daily_transition (now : Nat) (u : UserDoc) :
    (∀ la, u.lastActiveDate = some la → dateOf la = dateOf now →
      update_streak now u = (u, ⟨u.currentStreak, false, none⟩)) ∧
    (∀ la, u.lastActiveDate = some la → dateOf la + 1 = dateOf now →
      (update_streak now u).1.currentStreak = u.currentStreak + 1 ∧
      (update_streak now u).2.currentStreak = u.currentStreak + 1 ∧
      (update_streak now u).2.updated = true) ∧
    ((u.lastActiveDate = none ∨
        ∃ la, u.lastActiveDate = some la ∧ dateOf la + 1 < dateOf now) →
      (∀ e, u.streakFreezeActive = true → u.streakFreezeExpiry = some e → now ≤ e →
        (update_streak now u).1.currentStreak = u.currentStreak + 1 ∧
        (update_streak now u).1.streakFreezeActive = false ∧
        (update_streak now u).2.updated = true) ∧
      (∀ e, u.streakFreezeActive = true → u.streakFreezeExpiry = some e → e < now →
        (update_streak now u).1.currentStreak = 1 ∧
        (update_streak now u).1.streakFreezeActive = false) ∧
      ((u.streakFreezeActive = false ∨ u.streakFreezeExpiry = none) →
        (update_streak now u).1.currentStreak = 1)) := by
  refine ⟨?_, ?_, ?_⟩
  · intro la hla ht
    exact update_streak_today now u la hla ht
  · intro la hla hy
    rw [update_streak_yesterday now u la hla hy, streakWriteBack_eq]
    exact ⟨rfl, rfl, rfl⟩
  · intro hgap
    refine ⟨?_, ?_, ?_⟩
    · intro e ha he hne
      rw [update_streak_gap now u hgap, streakFreezeBranch_protected now u e ha he hne,
        streakWriteBack_eq]
      exact ⟨rfl, rfl, rfl⟩
    · intro e ha he hlt
      rw [update_streak_gap now u hgap, streakFreezeBranch_expired now u e ha he hlt,
        streakWriteBack_eq]
      exact ⟨rfl, rfl⟩
    · intro hno
      rw [update_streak_gap now u hgap, streakFreezeBranch_nofreeze now u hno,
        streakWriteBack_eq]

/-- C3 witness: the transition theorem applied at concrete records covering each
    case — same day, yesterday, protecting freeze, expired freeze, no freeze. -/
theorem update_streak_daily_transition_witness :
    (update_streak 100000 ⟨0, "Bronze", 3, 5, some 90000, 0, false, none, [], 0, none, none, []⟩ =
      (⟨0, "Bronze", 3, 5, some 90000, 0, false, none, [], 0, none, none, []⟩, ⟨3, false, none⟩)) ∧
    ((update_streak 172800
        ⟨0, "Bronze", 6, 6, some 86400, 0, false, none, [], 0, none, none, []⟩).1.currentStreak = 7 ∧
     (update_streak 172800
        ⟨0, "Bronze", 6, 6, some 86400, 0, false, none, [], 0, none, none, []⟩).2.currentStreak = 7 ∧
     (update_streak 172800
        ⟨0, "Bronze", 6, 6, some 86400, 0, false, none, [], 0, none, none, []⟩).2.updated = true) ∧
    ((update_streak 172800
        ⟨0, "Bronze", 5, 5, some 0, 1, true, some 400000, [], 0, none, none, []⟩).1.currentStreak = 6 ∧
     (update_streak 172800
        ⟨0, "Bronze", 5, 5, some 0, 1, true, some 400000, [], 0, none, none, []⟩).1.streakFreezeActive = false ∧
     (update_streak 172800
        ⟨0, "Bronze", 5, 5, some 0, 1, true, some 400000, [], 0, none, none, []⟩).2.updated = true) ∧
    ((update_streak 172800
        ⟨0, "Bronze", 5, 5, some 0, 1, true, some 100000, [], 0, none, none, []⟩).1.currentStreak = 1 ∧
     (update_streak 172800
        ⟨0, "Bronze", 5, 5, some 0, 1, true, some 100000, [], 0, none, none, []⟩).1.streakFreezeActive = false) ∧
    (update_streak 172800
        ⟨0, "Bronze", 5, 5, some 0, 0, false, none, [], 0, none, none, []⟩).1.currentStreak = 1 :=
  ⟨(update_streak_daily_transition 100000
      ⟨0, "Bronze", 3, 5, some 90000, 0, false, none, [], 0, none, none, []⟩).1 90000 rfl (by decide),
   (update_streak_daily_transition 172800
      ⟨0, "Bronze", 6, 6, some 86400, 0, false, none, [], 0, none, none, []⟩).2.1 86400 rfl (by decide),
   ((update_streak_daily_transition 172800
      ⟨0, "Bronze", 5, 5, some 0, 1, true, some 400000, [], 0, none, none, []⟩).2.2
      (Or.inr ⟨0, rfl, by decide⟩)).1 400000 rfl rfl (by decide),
   ((update_streak_daily_transition 172800
      ⟨0, "Bronze", 5, 5, some 0, 1, true, some 100000, [], 0, none, none, []⟩).2.2
      (Or.inr ⟨0, rfl, by decide⟩)).2.1 100000 rfl rfl (by decide),
   ((update_streak_daily_transition 172800
      ⟨0, "Bronze", 5, 5, some 0, 0, false, none, [], 0, none, none, []⟩).2.2
      (Or.inr ⟨0, rfl, by decide⟩)).2.2 (Or.inl rfl)⟩

theorem update_streak_reached_mono (t : Nat) (u : UserDoc) (x : Nat)
    (h : x ∈ u.streakMilestonesReached) :
    x ∈ (update_streak t u).1.streakMilestonesReached := by
  cases hla : u.lastActiveDate with
  | none =>
    rw [update_streak_gap t u (Or.inl hla), (streakFreezeBranch_step t u).2.2.1]
    exact h
  | some la =>
    by_cases h1 : dateOf la = dateOf t
    · rw [update_streak_today t u la hla h1]
      exact h
    · by_cases h2 : dateOf la + 1 = dateOf t
      · rw [update_streak_yesterday t u la hla h2,
          (streakWriteBack_fields t _ _ _).2.2.1]
        exact check_streak_milestone_mono u (u.currentStreak + 1) x h
      · by_cases h3 : dateOf la + 1 < dateOf t
        · rw [update_streak_gap t u (Or.inr ⟨la, hla, h3⟩),
            (streakFreezeBranch_step t u).2.2.1]
          exact h
        · rw [update_streak_future t u la hla h1 h2 h3,
            (streakWriteBack_fields t u 1 none).2.2.1]
          exact h

theorem update_streak_milestone_some (t : Nat) (u : UserDoc) (m : MilestoneResult)
    (h : (update_streak t u).2.milestone = some m) :
    m.milestone ∉ u.streakMilestonesReached ∧
    m.milestone ∈ (update_streak t u).1.streakMilestonesReached := by
  cases hla : u.lastActiveDate with
  | none =>
    rw [update_streak_gap t u (Or.inl hla)] at h
    rw [(streakFreezeBranch_step t u).2.2.2] at h
    exact absurd h (by simp)
  | some la =>
    by_cases h1 : dateOf la = dateOf t
    · rw [update_streak_today t u la hla h1] at h
      exact absurd h (by simp)
    · by_cases h2 : dateOf la + 1 = dateOf t
      · rw [update_streak_yesterday t u la hla h2] at h ⊢
        rw [(streakWriteBack_fields t _ _ _).2.2.2.2.2.2] at h
        have hc := check_streak_milestone_some u (u.currentStreak + 1) m h
        rw [(streakWriteBack_fields t _ _ _).2.2.1, hc.2.2, hc.1]
        exact ⟨hc.2.1, by simp⟩
      · by_cases h3 : dateOf la + 1 < dateOf t
        · rw [update_streak_gap t u (Or.inr ⟨la, hla, h3⟩)] at h
          rw [(streakFreezeBranch_step t u).2.2.2] at h
          exact absurd h (by simp)
        · rw [update_streak_future t u la hla h1 h2 h3] at h
          rw [(streakWriteBack_fields t u 1 none).2.2.2.2.2.2] at h
          exact absurd h (by simp)

theorem run_streak_awards_fresh (ts : List Nat) :
    ∀ u : UserDoc,
      (∀ x ∈ run_streak_awards ts u, x ∉ u.streakMilestonesReached) ∧
      (run_streak_awards ts u).Nodup := by
  induction ts with
  | nil =>
    intro u
    constructor
    · intro x hx
      simp [run_streak_awards] at hx
    · simp [run_streak_awards]
  | cons t ts ih =>
    intro u
    have hrun : run_streak_awards (t :: ts) u =
        (match (update_streak t u).2.milestone with
         | some m => [m.milestone]
         | none => []) ++ run_streak_awards ts (update_streak t u).1 := rfl
    cases hm : (update_streak t u).2.milestone with
    | none =>
      rw [hrun, hm]
      simp only [List.nil_append]
      constructor
      · intro x hx hmem
        exact (ih (update_streak t u).1).1 x hx (update_streak_reached_mono t u x hmem)
      · exact (ih _).2
    | some m =>
      have ha := update_streak_milestone_some t u m hm
      rw [hrun, hm]
      simp only [List.singleton_append]
      constructor
      · intro x hx
        rcases List.mem_cons.mp hx with rfl | hx
        · exact ha.1
        · intro hmem
          exact (ih _).1 x hx (update_streak_reached_mono t u x hmem)
      · rw [List.nodup_cons]
        exact ⟨fun hmem => (ih _).1 m.milestone hmem ha.2, (ih _).2⟩

/-- C4 counterexample: a user at streak 6 whose increment to 7 comes from freeze
    protection (gap of two days, active unexpired freeze, milestone 7 unclaimed)
    gets no milestone: the result has milestone none and the freeze tokens, XP
    and claimed set are unchanged, although the claim requires the 7-day award. -/
theorem milestone_skipped_under_freeze_protection :
    let u : UserDoc := ⟨0, "Bronze", 6, 6, some 0, 2, true, some 400000, [], 0, none, none, []⟩
    let r := update_streak 172800 u
    r.1.currentStreak = 7 ∧ (7 : Nat) ∉ u.streakMilestonesReached ∧ r.2.milestone = none ∧
    r.1.totalXP = 0 ∧ r.1.streakFreezes = 2 ∧ r.1.streakMilestonesReached = [] := by decide

/-- C4 amended: the milestone check runs only on the yesterday-continuation
    branch, where an unclaimed milestone value among {7,30,100,365} is awarded
    (tokens and XP added, value recorded); advances through the gap branch —
    freeze-protected ones included — never produce a milestone; and over any
    sequence of daily events each milestone value is awarded at most once. -/
theorem streak_milestone_awarding :
    (∀ now u la tier, u.lastActiveDate = some la → dateOf la + 1 = dateOf now →
      STREAK_MILESTONES.lookup (u.currentStreak + 1) = some tier →
      (u.currentStreak + 1) ∉ u.streakMilestonesReached →
      (update_streak now u).2.milestone =
        some ⟨u.currentStreak + 1, tier.title, tier.freeze_tokens, tier.bonus_xp,
              u.streakFreezes + tier.freeze_tokens⟩ ∧
      (update_streak now u).1.streakFreezes = u.streakFreezes + tier.freeze_tokens ∧
      (update_streak now u).1.totalXP = u.totalXP + tier.bonus_xp ∧
      (update_streak now u).1.streakMilestonesReached =
        u.streakMilestonesReached ++ [u.currentStreak + 1]) ∧
    (∀ now u, (u.lastActiveDate = none ∨
        ∃ la, u.lastActiveDate = some la ∧ dateOf la + 1 < dateOf now) →
      (update_streak now u).2.milestone = none) ∧
    (∀ ts u, (∀ x ∈ run_streak_awards ts u, x ∉ u.streakMilestonesReached) ∧
      (run_streak_awards ts u).Nodup) := by
  refine ⟨?_, ?_, fun ts u => run_streak_awards_fresh ts u⟩
  · intro now u la tier hla hy hl hn
    rw [update_streak_yesterday now u la hla hy,
      check_streak_milestone_of_lookup u (u.currentStreak + 1) tier hl hn,
      streakWriteBack_eq]
    exact ⟨rfl, rfl, rfl, rfl⟩
  · intro now u hgap
    rw [update_streak_gap now u hgap]
    exact (streakFreezeBranch_step now u).2.2.2

/-- C4 amended witness: the awarding theorem applied at a concrete
    yesterday-continuation into streak 7, a concrete gap event, and a concrete
    two-event trace. -/
theorem streak_milestone_awarding_witness :
    ((update_streak 172800
        ⟨0, "Bronze", 6, 6, some 86400, 0, false, none, [], 0, none, none, []⟩).2.milestone =
        some ⟨7, "Week Warrior", 1, 100, 1⟩ ∧
     (update_streak 172800
        ⟨0, "Bronze", 6, 6, some 86400, 0, false, none, [], 0, none, none, []⟩).1.streakFreezes = 1 ∧
     (update_streak 172800
        ⟨0, "Bronze", 6, 6, some 86400, 0, false, none, [], 0, none, none, []⟩).1.totalXP = 100 ∧
     (update_streak 172800
        ⟨0, "Bronze", 6, 6, some 86400, 0, false, none, [], 0, none, none, []⟩).1.streakMilestonesReached = [7]) ∧
    (update_streak 172800
        ⟨0, "Bronze", 5, 5, some 0, 0, false, none, [], 0, none, none, []⟩).2.milestone = none ∧
    ((∀ x ∈ run_streak_awards [172800, 259200]
        ⟨0, "Bronze", 6, 6, some 86400, 0, false, none, [], 0, none, none, []⟩, x ∉ ([] : List Nat)) ∧
     (run_streak_awards [172800, 259200]
        ⟨0, "Bronze", 6, 6, some 86400, 0, false, none, [], 0, none, none, []⟩).Nodup) :=
  ⟨(streak_milestone_awarding).1 172800
      ⟨0, "Bronze", 6, 6, some 86400, 0, false, none, [], 0, none, none, []⟩ 86400
      ⟨1, 100, "Week Warrior"⟩ rfl (by decide) (by decide) (by decide),
   (streak_milestone_awarding).2.1 172800
      ⟨0, "Bronze", 5, 5, some 0, 0, false, none, [], 0, none, none, []⟩
      (Or.inr ⟨0, rfl, by decide⟩),
   (streak_milestone_awarding).2.2 [172800, 259200]
      ⟨0, "Bronze", 6, 6, some 86400, 0, false, none, [], 0, none, none, []⟩⟩

theorem review_flashcard_ease_step (card : Flashcard) (rating : Rating)
    (h : 13 / 10 ≤ card.easeFactor) :
    13 / 10 ≤ (review_flashcard card rating).easeFactor := by
  cases rating with
  | again => simpa [review_flashcard, quality_map] using h
  | hard =>
    simp only [review_flashcard, quality_map]
    norm_num
    split
    · exact le_refl _
    · rename_i h2
      linarith [le_of_not_lt h2]
  | good =>
    simp only [review_flashcard, quality_map]
    norm_num
    split
    · exact le_refl _
    · rename_i h2
      linarith [le_of_not_lt h2]
  | easy =>
    simp only [review_flashcard, quality_map]
    norm_num
    split
    · exact le_refl _
    · rename_i h2
      linarith [le_of_not_lt h2]

/-- C6: a flashcard whose ease factor is at least 1.3 keeps an ease factor of at
    least 1.3 after any sequence of reviews with any ratings — the SM-2 update is
    clamped at 1.3 and a failed review leaves the ease factor untouched — so in
    particular no sequence of "again" ratings ever drops it below 1.3. -/
theorem ease_factor_clamped (ratings : List Rating) (card : Flashcard)
    (h : 13 / 10 ≤ card.easeFactor) :
    13 / 10 ≤ (ratings.foldl review_flashcard card).easeFactor := by
  induction ratings generalizing card with
  | nil => simpa using h
  | cons r rs ih =>
    simp only [List.foldl_cons]
    exact ih (review_flashcard card r) (review_flashcard_ease_step card r h)

/-- C6 witness: the clamp theorem applied to a card with ease factor 2.5 and two
    "again" reviews. -/
theorem ease_factor_clamped_witness :
    (13 / 10 : ℚ) ≤ (5 / 2 : ℚ) ∧
    13 / 10 ≤ ([Rating.again, Rating.again].foldl review_flashcard
      ⟨5 / 2, 6, 1, "reviewing"⟩).easeFactor :=
  ⟨by norm_num,
   ease_factor_clamped [Rating.again, Rating.again] ⟨5 / 2, 6, 1, "reviewing"⟩ (by norm_num)⟩

/-- C8 witness: the axis-policy theorem applied to an empty earned set, rank
    Bronze and a 35-day streak snapshot, where `streak_30` is reported and was
    not previously earned. -/
theorem check_achievements_axis_policy_witness :
    check_achievements [] "Bronze" ⟨0, 1, 35, 0, false⟩ =
      evaluate_spec [] "Bronze" ⟨0, 1, 35, 0, false⟩ ∧
    "streak_30" ∉ ([] : List String) :=
  ⟨(check_achievements_axis_policy [] "Bronze" ⟨0, 1, 35, 0, false⟩).1,
   (check_achievements_axis_policy [] "Bronze" ⟨0, 1, 35, 0, false⟩).2 "streak_30" (by decide)⟩
